import Mathlib

/-!
Verification of the `askllm` HTTP gateway (src/main.go) against its
natural-language specification.

The program is a single-route Gin server: on `GET /?q=...` it builds a
chat-completion request for the DeepSeek API, POSTs it upstream, and relays
the first choice's message content back to the caller.  We give a shallow
embedding of the data model (the four JSON payload structs), of Go's
`encoding/json` marshalling/unmarshalling restricted to those structs
(JSON modelled as a tree; numbers as rationals), and of the request handler
at src/main.go lines 65-152 as a pure function from the query string and an
upstream oracle to the HTTP response together with the list of outbound
calls made.
-/

namespace AskLLM

/-- `Message` from src/main.go lines 16-19: one chat turn. -/
structure Message where
  role : String
  content : String
deriving DecidableEq, Repr

/-- `DeepSeekRequestPayload` from src/main.go lines 22-28: the outbound
chat-completion request body. `MaxTokens` is a Go `int` (modelled as `Int`);
`Temperature` is a Go `float64` (modelled as `ℚ`; no arithmetic is ever
performed on it, it is only stored and serialized). -/
structure DeepSeekRequestPayload where
  model : String
  messages : List Message
  stream : Bool
  max_tokens : Int
  temperature : ℚ
deriving DecidableEq, Repr

/-- `Choice` from src/main.go lines 31-35. -/
structure Choice where
  index : Int
  message : Message
  finish_reason : String
deriving DecidableEq, Repr

/-- `UsageInfo` from src/main.go lines 38-42. -/
structure UsageInfo where
  prompt_tokens : Int
  completion_tokens : Int
  total_tokens : Int
deriving DecidableEq, Repr

/-- `DeepSeekResponsePayload` from src/main.go lines 45-52. -/
structure DeepSeekResponsePayload where
  id : String
  object : String
  created : Int
  model : String
  choices : List Choice
  usage : UsageInfo
deriving DecidableEq, Repr

/-- JSON values, as trees: the image of Go's `encoding/json` after
lexical concerns are discharged.  Numbers are rationals (Go decodes
into `int`/`float64`; none of the claims depend on float rounding). -/
inductive Json where
  | str (s : String)
  | num (q : ℚ)
  | bool (b : Bool)
  | null
  | arr (elems : List Json)
  | obj (fields : List (String × Json))

/-- Field lookup in a JSON object.  Go's `encoding/json` lets a later
duplicate key win, hence the left fold. -/
def lookupField (fields : List (String × Json)) (k : String) : Option Json :=
  fields.foldl (fun acc kv => if kv.1 = k then some kv.2 else acc) none

/-- Go unmarshalling of a `string` struct field: a missing field or JSON
`null` leaves the zero value `""`; a non-string value is an unmarshal
error. -/
def decodeStringField : Option Json → Option String
  | none => some ""
  | some Json.null => some ""
  | some (Json.str s) => some s
  | some _ => none

/-- Go unmarshalling of an `int`/`int64` struct field: missing or `null`
leaves zero; a fractional number or non-number is an unmarshal error. -/
def decodeIntField : Option Json → Option Int
  | none => some 0
  | some Json.null => some 0
  | some (Json.num q) => if q.den = 1 then some q.num else none
  | some _ => none

/-- Go unmarshalling of a `float64` struct field. -/
def decodeNumField : Option Json → Option ℚ
  | none => some 0
  | some Json.null => some 0
  | some (Json.num q) => some q
  | some _ => none

/-- Go unmarshalling of a `bool` struct field. -/
def decodeBoolField : Option Json → Option Bool
  | none => some false
  | some Json.null => some false
  | some (Json.bool b) => some b
  | some _ => none

/-- Go marshalling of `Message` (json tags `role`, `content`). -/
def marshalMessage (m : Message) : Json :=
  Json.obj [("role", Json.str m.role), ("content", Json.str m.content)]

/-- Go unmarshalling of a JSON value into a `Message`; `null` leaves the
zero-value struct. -/
def decodeMessage : Json → Option Message
  | Json.obj fields =>
    match decodeStringField (lookupField fields "role"),
          decodeStringField (lookupField fields "content") with
    | some r, some c => some ⟨r, c⟩
    | _, _ => none
  | Json.null => some ⟨"", ""⟩
  | _ => none

/-- Go unmarshalling of a `Message` struct field (zero value when absent). -/
def decodeMessageField : Option Json → Option Message
  | none => some ⟨"", ""⟩
  | some j => decodeMessage j

/-- Element-wise decoding of a JSON array of messages. -/
def decodeMessageList : List Json → Option (List Message)
  | [] => some []
  | j :: rest =>
    match decodeMessage j, decodeMessageList rest with
    | some m, some ms => some (m :: ms)
    | _, _ => none

/-- Go unmarshalling of a `[]Message` struct field: missing or `null`
yields the nil slice (modelled `[]`). -/
def decodeMessagesField : Option Json → Option (List Message)
  | none => some []
  | some Json.null => some []
  | some (Json.arr xs) => decodeMessageList xs
  | some _ => none

/-- `json.Marshal` of `DeepSeekRequestPayload` (src/main.go line 85), at
the level of JSON trees, with the struct's json tags. -/
def marshalRequest (p : DeepSeekRequestPayload) : Json :=
  Json.obj [("model", Json.str p.model),
            ("messages", Json.arr (p.messages.map marshalMessage)),
            ("stream", Json.bool p.stream),
            ("max_tokens", Json.num (p.max_tokens : ℚ)),
            ("temperature", Json.num p.temperature)]

/-- `json.Unmarshal` into a `DeepSeekRequestPayload`. -/
def unmarshalRequest : Json → Option DeepSeekRequestPayload
  | Json.obj fields =>
    match decodeStringField (lookupField fields "model"),
          decodeMessagesField (lookupField fields "messages"),
          decodeBoolField (lookupField fields "stream"),
          decodeIntField (lookupField fields "max_tokens"),
          decodeNumField (lookupField fields "temperature") with
    | some mo, some ms, some st, some mt, some te => some ⟨mo, ms, st, mt, te⟩
    | _, _, _, _, _ => none
  | Json.null => some ⟨"", [], false, 0, 0⟩
  | _ => none

/-- Go unmarshalling of a JSON value into a `Choice`. -/
def decodeChoice : Json → Option Choice
  | Json.obj fields =>
    match decodeIntField (lookupField fields "index"),
          decodeMessageField (lookupField fields "message"),
          decodeStringField (lookupField fields "finish_reason") with
    | some i, some m, some f => some ⟨i, m, f⟩
    | _, _, _ => none
  | Json.null => some ⟨0, ⟨"", ""⟩, ""⟩
  | _ => none

/-- Element-wise decoding of a JSON array of choices. -/
def decodeChoiceList : List Json → Option (List Choice)
  | [] => some []
  | j :: rest =>
    match decodeChoice j, decodeChoiceList rest with
    | some c, some cs => some (c :: cs)
    | _, _ => none

/-- Go unmarshalling of a `[]Choice` struct field. -/
def decodeChoicesField : Option Json → Option (List Choice)
  | none => some []
  | some Json.null => some []
  | some (Json.arr xs) => decodeChoiceList xs
  | some _ => none

/-- Go unmarshalling of a JSON value into `UsageInfo`. -/
def decodeUsage : Json → Option UsageInfo
  | Json.obj fields =>
    match decodeIntField (lookupField fields "prompt_tokens"),
          decodeIntField (lookupField fields "completion_tokens"),
          decodeIntField (lookupField fields "total_tokens") with
    | some p, some c, some t => some ⟨p, c, t⟩
    | _, _, _ => none
  | Json.null => some ⟨0, 0, 0⟩
  | _ => none

/-- Go unmarshalling of a `UsageInfo` struct field. -/
def decodeUsageField : Option Json → Option UsageInfo
  | none => some ⟨0, 0, 0⟩
  | some j => decodeUsage j

/-- `json.Unmarshal` into a `DeepSeekResponsePayload`
(src/main.go line 136). -/
def unmarshalResponse : Json → Option DeepSeekResponsePayload
  | Json.obj fields =>
    match decodeStringField (lookupField fields "id"),
          decodeStringField (lookupField fields "object"),
          decodeIntField (lookupField fields "created"),
          decodeStringField (lookupField fields "model"),
          decodeChoicesField (lookupField fields "choices"),
          decodeUsageField (lookupField fields "usage") with
    | some i, some o, some cr, some mo, some ch, some us =>
      some ⟨i, o, cr, mo, ch, us⟩
    | _, _, _, _, _, _ => none
  | Json.null => some ⟨"", "", 0, "", [], ⟨0, 0, 0⟩⟩
  | _ => none

/-- An upstream response body: either lexically valid JSON (given as its
tree) or bytes that are not valid JSON at all. -/
inductive RespBody where
  | json (j : Json)
  | malformed (raw : String)

/-- Parsing a response body as a `DeepSeekResponsePayload`: the composite
of JSON lexing and `json.Unmarshal` (src/main.go lines 135-136). -/
def parseBody : RespBody → Option DeepSeekResponsePayload
  | RespBody.json j => unmarshalResponse j
  | RespBody.malformed _ => none

/-- Outcome of the single outbound HTTP POST, as observed by the handler:
`transportError` is a `client.Do` failure (src/main.go line 112-117,
including the 60-second timeout), `readError` an `io.ReadAll` failure after
a response with the given status arrived (lines 121-126), and `response`
a fully read response with its status code and body (lines 128 on). -/
inductive UpstreamOutcome where
  | transportError
  | readError (status : Nat)
  | response (status : Nat) (body : RespBody)

/-- A caller-visible HTTP response: status code and plain-text body. -/
structure HttpResponse where
  status : Nat
  body : String
deriving DecidableEq, Repr

/-- Fixed 400 text, src/main.go line 70. -/
def missingQueryMsg : String :=
  "Please provide a query with the 'q' parameter. Example: /?q=Hello"

/-- Fixed 500 text for local failures (marshal, read), src/main.go
lines 88 and 124. -/
def internalErrorMsg : String := "Internal server error."

/-- Fixed 500 text for transport failure, src/main.go line 115. -/
def contactFailMsg : String :=
  "Failed to contact DeepSeek LLM. Please try again later."

/-- Fixed 500 text for a non-200 upstream status, src/main.go line 130. -/
def upstreamErrorMsg : String :=
  "Error from DeepSeek LLM. Please try again later."

/-- Fixed 500 text for an unparseable 200 body, src/main.go line 139. -/
def invalidFormatMsg : String :=
  "Internal server error: invalid response format from DeepSeek LLM."

/-- Fixed 200 fallback text when no usable choice exists, src/main.go
line 150. -/
def noAnswerMsg : String :=
  "DeepSeek LLM could not generate a response to your query."

/-- The fixed model identifier, src/main.go line 78. -/
def deepseekModel : String := "deepseek-ai/DeepSeek-R1"

/-- The fixed upstream endpoint, src/main.go line 93 (not consulted by any
claim's property, recorded for completeness). -/
def apiUrl : String := "https://llm.chutes.ai/v1/chat/completions"

/-- The payload built at src/main.go lines 77-83 for a given query. -/
def buildPayload (query : String) : DeepSeekRequestPayload :=
  { model := deepseekModel
    messages := [{ role := "user", content := query }]
    stream := false
    max_tokens := 1024
    temperature := 7/10 }

/-- src/main.go lines 112-151: how the handler turns the outcome of the one
outbound POST into the response written via `c.String`.  In order:
`client.Do` failure (line 113), `io.ReadAll` failure (line 122), the
`resp.StatusCode != http.StatusOK` check (line 128, note: the comparison is
with 200 exactly), `json.Unmarshal` (line 136), and the
`len(choices) > 0 && choices[0].Message.Content != ""` extraction
(line 144). -/
def respond : UpstreamOutcome → HttpResponse
  | UpstreamOutcome.transportError => ⟨500, contactFailMsg⟩
  | UpstreamOutcome.readError _ => ⟨500, internalErrorMsg⟩
  | UpstreamOutcome.response status body =>
    if status ≠ 200 then
      ⟨500, upstreamErrorMsg⟩
    else
      match parseBody body with
      | none => ⟨500, invalidFormatMsg⟩
      | some r =>
        match r.choices with
        | c :: _ =>
          if c.message.content ≠ "" then
            ⟨200, c.message.content⟩
          else
            ⟨200, noAnswerMsg⟩
        | [] => ⟨200, noAnswerMsg⟩

/-- The `router.GET("/", ...)` handler, src/main.go lines 65-152, as a pure
function of the query-parameter value and an oracle giving the outcome of
the outbound POST for the payload sent.  `c.Query("q")` returns `""` both
when `q` is absent and when it is empty, so the empty string covers both.
Returns the response written via `c.String` together with the list of
outbound calls issued (so that "no downstream call" and "no retry" are
expressible): the handler issues exactly one POST, with `buildPayload query`,
unless the query is empty.  The `json.Marshal` error branch (lines 86-90)
and the `http.NewRequest` error branch (lines 102-106) are unreachable —
marshalling these struct types and building a POST to a constant well-formed
URL cannot fail in Go — and marshalling is total in the model, so they have
no image. -/
def handle (query : String) (upstream : DeepSeekRequestPayload → UpstreamOutcome) :
    HttpResponse × List DeepSeekRequestPayload :=
  if query = "" then
    (⟨400, missingQueryMsg⟩, [])
  else
    (respond (upstream (buildPayload query)), [buildPayload query])

/-! ### Concrete fixtures for witnesses and counterexamples -/

/-- A well-formed upstream body whose first choice carries the text
`"Hello!"`. -/
def helloBody : RespBody :=
  RespBody.json (Json.obj
    [("id", Json.str "cmpl-1"),
     ("object", Json.str "chat.completion"),
     ("created", Json.num 1),
     ("model", Json.str "deepseek-ai/DeepSeek-R1"),
     ("choices", Json.arr
       [Json.obj
         [("index", Json.num 0),
          ("message", Json.obj
            [("role", Json.str "assistant"), ("content", Json.str "Hello!")]),
          ("finish_reason", Json.str "stop")]]),
     ("usage", Json.obj
       [("prompt_tokens", Json.num 1), ("completion_tokens", Json.num 2),
        ("total_tokens", Json.num 3)])])

/-- The choice carried by `helloBody`. -/
def helloChoice : Choice := ⟨0, ⟨"assistant", "Hello!"⟩, "stop"⟩

/-- What `helloBody` parses to. -/
def helloResp : DeepSeekResponsePayload :=
  ⟨"cmpl-1", "chat.completion", 1, "deepseek-ai/DeepSeek-R1", [helloChoice], ⟨1, 2, 3⟩⟩

/-- A well-formed upstream body whose single choice has empty message
content. -/
def emptyContentBody : RespBody :=
  RespBody.json (Json.obj
    [("id", Json.str "cmpl-2"),
     ("object", Json.str "chat.completion"),
     ("created", Json.num 2),
     ("model", Json.str "deepseek-ai/DeepSeek-R1"),
     ("choices", Json.arr
       [Json.obj
         [("index", Json.num 0),
          ("message", Json.obj
            [("role", Json.str "assistant"), ("content", Json.str "")]),
          ("finish_reason", Json.str "stop")]]),
     ("usage", Json.obj
       [("prompt_tokens", Json.num 1), ("completion_tokens", Json.num 0),
        ("total_tokens", Json.num 1)])])

/-- What `emptyContentBody` parses to. -/
def emptyContentResp : DeepSeekResponsePayload :=
  ⟨"cmpl-2", "chat.completion", 2, "deepseek-ai/DeepSeek-R1",
   [⟨0, ⟨"assistant", ""⟩, "stop"⟩], ⟨1, 0, 1⟩⟩

/-- The JSON body `{}`: valid JSON, parses to the all-zero response (Go's
`json.Unmarshal` fills absent fields with zero values), in particular an
empty `choices` slice. -/
def emptyObjBody : RespBody := RespBody.json (Json.obj [])

/-- What `emptyObjBody` parses to. -/
def zeroResp : DeepSeekResponsePayload := ⟨"", "", 0, "", [], ⟨0, 0, 0⟩⟩

/-! ### Helper lemmas -/

/-- Unmarshalling inverts marshalling on a single message. -/
theorem decodeMessage_marshalMessage (m : Message) :
    decodeMessage (marshalMessage m) = some m := rfl

/-- Unmarshalling inverts marshalling element-wise on message lists. -/
theorem decodeMessageList_marshal (l : List Message) :
    decodeMessageList (l.map marshalMessage) = some l := by
  induction l with
  | nil => rfl
  | cons m rest ih =>
    simp [List.map_cons, decodeMessageList, decodeMessage_marshalMessage, ih]

/-- `respond` only ever produces status 200 or 500. -/
theorem respond_status (o : UpstreamOutcome) :
    (respond o).status = 200 ∨ (respond o).status = 500 := by
  rcases o with _ | s | ⟨s, b⟩
  · exact Or.inr rfl
  · exact Or.inr rfl
  · simp only [respond]
    split
    · exact Or.inr rfl
    · rcases hp : parseBody b with _ | r
      · simp
      · simp only []
        rcases hc : r.choices with _ | ⟨c, rest⟩
        · simp
        · simp only []
          by_cases h : c.message.content = "" <;> simp [h]

/-! ### Claim theorems -/

/-- Claim C1, counterexample.  The claim promises, for any 2xx response
whose `choices` is non-empty, a 200 reply whose body is the first choice's
message content with no transformation.  At status 200 with a single choice
whose content is `""` (the precondition holds: the body parses and
`choices` has one element) the handler instead replies with the fixed
fallback text, which differs from that content. -/
theorem c1_claim_counterexample :
    parseBody emptyContentBody = some emptyContentResp ∧
    emptyContentResp.choices.map (fun c => c.message.content) = [""] ∧
    (handle "hi" (fun _ => UpstreamOutcome.response 200 emptyContentBody)).1
      = ⟨200, noAnswerMsg⟩ ∧
    noAnswerMsg ≠ "" :=
  ⟨rfl, rfl, rfl, by decide⟩

/-- Claim C1, as amended: for every non-empty query, if the upstream call
returns status exactly 200 with a body that parses to a response whose
first choice has non-empty message content, the handler replies HTTP 200
with exactly that content. -/
theorem c1_first_choice_relayed (q : String)
    (u : DeepSeekRequestPayload → UpstreamOutcome) (body : RespBody)
    (r : DeepSeekResponsePayload) (c : Choice) (rest : List Choice)
    (hq : q ≠ "") (hu : u (buildPayload q) = UpstreamOutcome.response 200 body)
    (hp : parseBody body = some r) (hc : r.choices = c :: rest)
    (hne : c.message.content ≠ "") :
    (handle q u).1 = ⟨200, c.message.content⟩ := by
  simp [handle, hq, hu, respond, hp, hc, hne]

/-- Claim C1, witness for the amended theorem at a concrete input. -/
theorem c1_first_choice_relayed_witness :
    (handle "hi" (fun _ => UpstreamOutcome.response 200 helloBody)).1
      = ⟨200, "Hello!"⟩ :=
  c1_first_choice_relayed "hi" _ helloBody helloResp helloChoice []
    (by decide) rfl rfl rfl (by decide)

/-- Claim C2: an absent or empty `q` (Gin's `c.Query` yields `""` for both)
is answered HTTP 400 with the fixed instructional message, and no outbound
call is issued. -/
theorem c2_missing_query_rejected_locally
    (u : DeepSeekRequestPayload → UpstreamOutcome) :
    handle "" u = (⟨400, missingQueryMsg⟩, []) := rfl

/-- Claim C3, counterexample.  The claim says every 2xx status proceeds to
the parse-and-extract path.  Status 204 is 2xx and its body `{}` parses
(parse-and-extract would have produced the 200 fallback reply), yet the
handler takes the upstream-error path and replies 500. -/
theorem c3_claim_counterexample :
    (200 ≤ 204 ∧ 204 < 300) ∧
    parseBody emptyObjBody = some zeroResp ∧
    (handle "hi" (fun _ => UpstreamOutcome.response 204 emptyObjBody)).1
      = ⟨500, upstreamErrorMsg⟩ ∧
    upstreamErrorMsg ≠ noAnswerMsg :=
  ⟨by decide, rfl, rfl, by decide⟩

/-- Claim C3, as amended: a status other than exactly 200 is treated as the
upstream-error failure (HTTP 500); status 200 — and only it — proceeds to
the parse-and-extract path, where a parse failure yields the
malformed-response 500 and a parse success yields an HTTP 200 reply. -/
theorem c3_only_200_parses (q : String)
    (u : DeepSeekRequestPayload → UpstreamOutcome) (status : Nat)
    (body : RespBody)
    (hq : q ≠ "")
    (hu : u (buildPayload q) = UpstreamOutcome.response status body) :
    (status ≠ 200 → (handle q u).1 = ⟨500, upstreamErrorMsg⟩) ∧
    (status = 200 → parseBody body = none →
      (handle q u).1 = ⟨500, invalidFormatMsg⟩) ∧
    (status = 200 → ∀ r, parseBody body = some r →
      (handle q u).1.status = 200) := by
  refine ⟨fun hs => by simp [handle, hq, hu, respond, hs],
          fun hs hp => by subst hs; simp [handle, hq, hu, respond, hp],
          fun hs r hp => ?_⟩
  subst hs
  simp only [handle, if_neg hq, hu, respond]
  simp only [hp]
  rcases hc : r.choices with _ | ⟨c, rest⟩
  · simp
  · simp only []
    by_cases h : c.message.content = "" <;> simp [h]

/-- Claim C3, witness at a concrete input (status 503). -/
theorem c3_only_200_parses_witness :
    (handle "hi" (fun _ => UpstreamOutcome.response 503 (RespBody.malformed "boom"))).1
      = ⟨500, upstreamErrorMsg⟩ :=
  (c3_only_200_parses "hi" _ 503 (RespBody.malformed "boom")
    (by decide) rfl).1 (by decide)

/-- Claim C4: a successfully parsed upstream response with no usable
choice — `choices` empty, or the first choice's message content empty —
yields HTTP 200 with the fixed fallback text, a success, not a 500. -/
theorem c4_no_usable_choice_fallback (q : String)
    (u : DeepSeekRequestPayload → UpstreamOutcome) (body : RespBody)
    (r : DeepSeekResponsePayload)
    (hq : q ≠ "") (hu : u (buildPayload q) = UpstreamOutcome.response 200 body)
    (hp : parseBody body = some r)
    (hr : r.choices = [] ∨
      ∃ c rest, r.choices = c :: rest ∧ c.message.content = "") :
    (handle q u).1 = ⟨200, noAnswerMsg⟩ := by
  rcases hr with hr | ⟨c, rest, hc, hcontent⟩
  · simp [handle, hq, hu, respond, hp, hr]
  · simp [handle, hq, hu, respond, hp, hc, hcontent]

/-- Claim C4, witness: the body `{}` parses to a response with
`choices = []` and the handler replies 200 with the fallback text. -/
theorem c4_no_usable_choice_fallback_witness :
    (handle "hi" (fun _ => UpstreamOutcome.response 200 emptyObjBody)).1
      = ⟨200, noAnswerMsg⟩ :=
  c4_no_usable_choice_fallback "hi" _ emptyObjBody zeroResp
    (by decide) rfl rfl (Or.inl rfl)

/-- Claim C5: for every non-empty query the single outbound request is the
fixed-shape payload — one user-role message carrying the query, the fixed
model identifier, `stream = false`, `max_tokens = 1024`,
`temperature = 0.7`. -/
theorem c5_outbound_payload (q : String)
    (u : DeepSeekRequestPayload → UpstreamOutcome) (hq : q ≠ "") :
    (handle q u).2
      = [{ model := deepseekModel,
           messages := [{ role := "user", content := q }],
           stream := false,
           max_tokens := 1024,
           temperature := 7/10 }] := by
  simp [handle, hq, buildPayload]

/-- Claim C5, witness at the spec's example query `"Hello"`. -/
theorem c5_outbound_payload_witness :
    (handle "Hello" (fun _ => UpstreamOutcome.transportError)).2
      = [{ model := deepseekModel,
           messages := [{ role := "user", content := "Hello" }],
           stream := false,
           max_tokens := 1024,
           temperature := 7/10 }] :=
  c5_outbound_payload "Hello" _ (by decide)

/-- Claim C6: serializing any `DeepSeekRequestPayload` and deserializing
the result returns the original struct (round-trip identity). -/
theorem c6_request_roundtrip (p : DeepSeekRequestPayload) :
    unmarshalRequest (marshalRequest p) = some p := by
  obtain ⟨mo, ms, st, mt, te⟩ := p
  simp [marshalRequest, unmarshalRequest, lookupField, decodeStringField,
    decodeBoolField, decodeIntField, decodeNumField, decodeMessagesField,
    decodeMessageList_marshal]

/-- Claim C7, counterexample.  The claim says every 2xx response with an
unparseable body is classified malformed-upstream-response (whose fixed
caller-visible text is `invalidFormatMsg`).  Status 202 is 2xx and the body
is unparseable, yet the handler classifies it upstream-error and replies
with `upstreamErrorMsg`. -/
theorem c7_claim_counterexample :
    (200 ≤ 202 ∧ 202 < 300) ∧
    parseBody (RespBody.malformed "not json") = none ∧
    (handle "hi" (fun _ => UpstreamOutcome.response 202 (RespBody.malformed "not json"))).1
      = ⟨500, upstreamErrorMsg⟩ ∧
    upstreamErrorMsg ≠ invalidFormatMsg :=
  ⟨by decide, rfl, rfl, by decide⟩

/-- Claim C7, as amended: a status-200 response whose body cannot be parsed
is classified malformed-upstream-response, answered HTTP 500, and exactly
one outbound call was made (no retry). -/
theorem c7_malformed_200_is_500_no_retry (q : String)
    (u : DeepSeekRequestPayload → UpstreamOutcome) (body : RespBody)
    (hq : q ≠ "") (hu : u (buildPayload q) = UpstreamOutcome.response 200 body)
    (hp : parseBody body = none) :
    (handle q u).1 = ⟨500, invalidFormatMsg⟩ ∧ (handle q u).2.length = 1 := by
  constructor
  · simp [handle, hq, hu, respond, hp]
  · simp [handle, hq]

/-- Claim C7, witness at a concrete unparseable body. -/
theorem c7_malformed_200_is_500_no_retry_witness :
    (handle "hi" (fun _ => UpstreamOutcome.response 200 (RespBody.malformed "oops"))).1
      = ⟨500, invalidFormatMsg⟩ ∧
    (handle "hi" (fun _ => UpstreamOutcome.response 200 (RespBody.malformed "oops"))).2.length
      = 1 :=
  c7_malformed_200_is_500_no_retry "hi" _ (RespBody.malformed "oops")
    (by decide) rfl rfl

/-- Claim C8: each per-request failure kind maps to a fixed 500 text that
is a constant — independent of the upstream status code and of the raw
upstream body — so any two upstream error responses, whatever their bodies,
produce the identical caller-visible response, and no upstream detail can
leak into it. -/
theorem c8_error_responses_fixed (q : String) (hq : q ≠ "") :
    (∀ s b, s ≠ 200 →
      (handle q (fun _ => UpstreamOutcome.response s b)).1
        = ⟨500, upstreamErrorMsg⟩) ∧
    (∀ b, parseBody b = none →
      (handle q (fun _ => UpstreamOutcome.response 200 b)).1
        = ⟨500, invalidFormatMsg⟩) ∧
    (handle q (fun _ => UpstreamOutcome.transportError)).1
      = ⟨500, contactFailMsg⟩ ∧
    (∀ s, (handle q (fun _ => UpstreamOutcome.readError s)).1
      = ⟨500, internalErrorMsg⟩) := by
  refine ⟨fun s b hs => by simp [handle, hq, respond, hs],
          fun b hp => by simp [handle, hq, respond, hp],
          by simp [handle, hq, respond],
          fun s => by simp [handle, hq, respond]⟩

/-- Claim C8, witness: an upstream 404 carrying a secret body is relayed as
the fixed upstream-error 500. -/
theorem c8_error_responses_fixed_witness :
    (handle "hi" (fun _ => UpstreamOutcome.response 404 (RespBody.malformed "secret upstream detail"))).1
      = ⟨500, upstreamErrorMsg⟩ :=
  (c8_error_responses_fixed "hi" (by decide)).1 404
    (RespBody.malformed "secret upstream detail") (by decide)

/-- Claim C9: whatever the query and the upstream outcome, the handler's
status code is 200, 400 or 500. -/
theorem c9_status_codes (q : String)
    (u : DeepSeekRequestPayload → UpstreamOutcome) :
    (handle q u).1.status = 200 ∨ (handle q u).1.status = 400 ∨
    (handle q u).1.status = 500 := by
  by_cases hq : q = ""
  · subst hq; simp [handle]
  · have h := respond_status (u (buildPayload q))
    simp only [handle, if_neg hq]
    tauto

/-- Claim C10: any non-empty `q` — whitespace-only included — is treated as
present (no 400) and forwarded verbatim, with no trimming or normalization,
as the content of the single user message of the one outbound request. -/
theorem c10_query_forwarded_verbatim (q : String)
    (u : DeepSeekRequestPayload → UpstreamOutcome) (hq : q ≠ "") :
    (handle q u).1.status ≠ 400 ∧
    (handle q u).2.map (fun p => p.messages) = [[⟨"user", q⟩]] := by
  constructor
  · have h := respond_status (u (buildPayload q))
    simp only [handle, if_neg hq]
    rcases h with h | h <;> simp [h]
  · simp [handle, hq, buildPayload]

/-- Claim C10, witness at the whitespace-only query `"   "`. -/
theorem c10_query_forwarded_verbatim_witness :
    (handle "   " (fun _ => UpstreamOutcome.transportError)).1.status ≠ 400 ∧
    (handle "   " (fun _ => UpstreamOutcome.transportError)).2.map (fun p => p.messages)
      = [[⟨"user", "   "⟩]] :=
  c10_query_forwarded_verbatim "   " _ (by decide)

end AskLLM
